import Mathlib

/-!
Verification of the gateway proxy and stream relay implemented in
`src/analyzer_service/app/api/routers/gateway.py`, via a shallow embedding.

Modelling conventions:

* Byte strings (downstream chunks, yielded frames) are modelled as Lean
  `String`s; all payloads relevant to the claims are ASCII, and `.encode()`
  is the identity on this fragment.
* Python values appearing in the JSON `params` object are modelled by `PyVal`.
* The downstream service's behaviour for one request is an explicit scenario
  value (`StreamScenario` / `BufferedScenario`): it records what the httpx
  client observes (transport failures, status code, body, chunk sequence).
* Library facts baked into the embedding, each noted at its definition:
  `httpx.Response` has no method named `atext`; `httpx.Response.raise_for_status`
  raises `HTTPStatusError` for every non-2xx status; `except httpx.RequestError`
  catches connect errors and timeouts but not `AttributeError`;
  `json.dumps` on a two-key dict uses insertion order and `", "` / `": "`
  separators.
-/

namespace Gateway

/-- Python values that can appear in the JSON-decoded `params` object (and in a
JSON-decoded downstream body): `None`, `bool`, `int`, `str`, `list`, `dict`. -/
inductive PyVal where
  | none
  | bool (b : Bool)
  | int (i : Int)
  | str (s : String)
  | list (xs : List PyVal)
  | dict (xs : List (String × PyVal))

/-- Python truthiness (`bool(v)`): `None`, `False`, `0`, `""` and empty
containers are falsy; everything else is truthy. -/
def PyVal.truthy : PyVal → Bool
  | .none => false
  | .bool b => b
  | .int i => decide (i ≠ 0)
  | .str s => decide (s ≠ "")
  | .list xs => !xs.isEmpty
  | .dict xs => !xs.isEmpty

/-- Python `params.get(key, default)` over the JSON object `params`
(keys unique, insertion ordered). -/
def dictGet (params : List (String × PyVal)) (key : String) (dflt : PyVal) : PyVal :=
  match params.find? (fun kv => kv.1 == key) with
  | some kv => kv.2
  | Option.none => dflt

/-- One frame handed to the caller by the relay generator: either a raw
downstream chunk yielded verbatim (`yield chunk`, gateway.py line 63) or a
synthesized error frame (the two `yield f"data: ..."` sites, lines 56 and 74).
The constructor records the yield site; `eventBytes` gives the bytes yielded. -/
inductive StreamEvent where
  | data (chunk : String)
  | error (message : String)
deriving DecidableEq

/-- Whether an event is a synthesized error event. -/
def StreamEvent.isError : StreamEvent → Bool
  | .error _ => true
  | .data _ => false

/-- Python exceptions relevant to the relay that are not `httpx.RequestError`
(and hence escape the generator's `except httpx.RequestError` clause). -/
inductive PyExc where
  | attributeError (attr : String)
deriving DecidableEq

/-- The attribute names `httpx.Response` actually provides (the read/stream API
surface): `status_code`, `headers`, `request`, `url`, `text`, `content`,
`json`, `read`/`aread`, the `iter_*`/`aiter_*` iterators, `close`/`aclose`,
`raise_for_status`, `is_success`.  There is no method named `atext` (the async
full-body read is `aread()`; `text` is a synchronous property); this list is
what decides that `response.atext` raises `AttributeError`. -/
def httpxResponseAttrs : List String :=
  ["status_code", "headers", "request", "url", "text", "content", "json",
   "read", "aread", "iter_bytes", "aiter_bytes", "iter_text", "aiter_text",
   "iter_lines", "aiter_lines", "iter_raw", "aiter_raw", "close", "aclose",
   "raise_for_status", "is_success"]

/-- Python attribute lookup on an `httpx.Response`: a missing attribute raises
`AttributeError` (which is not an `httpx.RequestError`). -/
def getattrResponse (name : String) : Except PyExc Unit :=
  if name ∈ httpxResponseAttrs then .ok () else .error (.attributeError name)

/-- One downstream streaming interaction as observed through the httpx client:
either opening the stream raises `httpx.RequestError` (`connectError` — covers
connection refused, DNS failure, timeout), or a response arrives with `status`
(= `response.status_code`), `bodyText` (the text a full body read would
return), and a chunk iterator that delivers `chunks` in order and then either
finishes normally (`midFail = false`) or raises `httpx.RequestError`
(`midFail = true`). -/
inductive StreamScenario where
  | connectError
  | resp (status : Nat) (bodyText : String) (chunks : List String) (midFail : Bool)

/-- The in-band message for transport-level failures (gateway.py line 73). -/
def unavailableMsg : String := "Downstream service is unavailable."

/-- Shallow embedding of the generator `_stream_downstream_response`
(gateway.py lines 32-75).  Returns the events yielded, in order, together with
the exception (if any) that escapes the generator to its consumer.

Tracing the source: a `httpx.RequestError` while opening the stream is caught
by the `except httpx.RequestError` clause, which yields the unavailability
frame.  If a response arrives with `status_code >= 400` the code evaluates
`await response.atext()`; `httpx.Response` has no attribute `atext`
(`getattrResponse`), so this raises `AttributeError`, which the
`except httpx.RequestError` clause does not catch: the generator re-raises
after zero yields.  (Had the attribute existed, the code would yield one
framed error event `"Downstream error: " ++ body` and return.)  For
`status_code < 400` the code yields each chunk of `response.aiter_bytes()`
verbatim; a `httpx.RequestError` raised mid-iteration is caught and the
unavailability frame is yielded. -/
def streamDownstreamResponse : StreamScenario → List StreamEvent × Option PyExc
  | .connectError => ([.error unavailableMsg], Option.none)
  | .resp status bodyText chunks midFail =>
    if 400 ≤ status then
      match getattrResponse "atext" with
      | .error e => ([], some e)
      | .ok _ => ([.error ("Downstream error: " ++ bodyText)], Option.none)
    else if midFail then
      (chunks.map .data ++ [.error unavailableMsg], Option.none)
    else
      (chunks.map .data, Option.none)

/-- Hexadecimal digit, lower case (as produced by Python's `json` module). -/
def hexDigit (n : Nat) : Char :=
  if n < 10 then Char.ofNat (48 + n) else Char.ofNat (87 + n)

/-- A `\uXXXX` escape sequence. -/
def uEscape (n : Nat) : String :=
  "\\u" ++ String.mk [hexDigit (n / 4096 % 16), hexDigit (n / 256 % 16),
                      hexDigit (n / 16 % 16), hexDigit (n % 16)]

/-- Escape of one character inside a JSON string literal, as performed by
Python's `json.dumps` with its default `ensure_ascii=True`: the two-character
escapes for `"` `\` and the C0 controls b, t, n, f, r; printable ASCII
(0x20-0x7e) kept literal; everything else as `\uXXXX` (surrogate pairs above
the BMP). -/
def pyJsonEscapeChar (c : Char) : String :=
  if c = '"' then "\\\""
  else if c = '\\' then "\\\\"
  else if c = '\n' then "\\n"
  else if c = '\r' then "\\r"
  else if c = '\t' then "\\t"
  else if c.toNat = 8 then "\\b"
  else if c.toNat = 12 then "\\f"
  else if 32 ≤ c.toNat ∧ c.toNat ≤ 126 then String.singleton c
  else if c.toNat < 65536 then uEscape c.toNat
  else uEscape (55296 + (c.toNat - 65536) / 1024) ++
       uEscape (56320 + (c.toNat - 65536) % 1024)

/-- Python `json.dumps` of a string value. -/
def pyJsonDumpsStr (s : String) : String :=
  "\"" ++ String.join (s.data.map pyJsonEscapeChar) ++ "\""

/-- Python `json.dumps({"type": "error", "message": msg})`: dicts preserve
insertion order and the default separators are `", "` and `": "`. -/
def pyJsonErrorObj (msg : String) : String :=
  "\x7b\"type\": \"error\", \"message\": " ++ pyJsonDumpsStr msg ++ "\x7d"

/-- The bytes the generator actually yields for one event: raw chunks are
yielded verbatim (`yield chunk`); error events are yielded as an SSE frame
`f"data: \x7berror_payload\x7d\n\n".encode()`. -/
def eventBytes : StreamEvent → String
  | .data chunk => chunk
  | .error msg => "data: " ++ pyJsonErrorObj msg ++ "\n\n"

/-- The byte strings yielded by `_stream_downstream_response`, in order. -/
def relayBytes (s : StreamScenario) : List String :=
  (streamDownstreamResponse s).1.map eventBytes

/-- Whether a byte string is a complete server-sent-event frame of the form
`data: <payload>\n\n` (begins with `data: ` and ends with a blank line). -/
def isSSEFrame (s : String) : Bool :=
  decide (s.data.take 6 = "data: ".data) &&
  decide (s.data.drop (s.data.length - 2) = "\n\n".data)

/-- Scenarios in which a transport-level failure (`httpx.RequestError`:
connection reset, refusal, timeout) occurs before or during relaying. -/
def transportFailure : StreamScenario → Prop
  | .connectError => True
  | .resp status _ _ midFail => status < 400 ∧ midFail = true

/-- One buffered downstream response: `status` (= `response.status_code`),
`text` (= `response.text`), and `jsonBody` (the result of `response.json()`:
`some v` when the body is valid JSON decoding to `v`, `none` when decoding
raises `json.JSONDecodeError`). -/
structure BufferedResp where
  status : Nat
  text : String
  jsonBody : Option PyVal

/-- One buffered downstream interaction: either the request raises
`httpx.RequestError` (connect failure, DNS failure, timeout), or a response
arrives. -/
inductive BufferedScenario where
  | requestError
  | resp (r : BufferedResp)

/-- Configuration consumed by the handler (`app.core.config.settings`). -/
structure Settings where
  AGENT_AI_SERVICE_URL : String
  INTERNAL_API_KEY : String

/-- The validated JSON body of a proxy request (`AgentProxyRequest`): the
target agent name and the parameters object (`params` defaults to `\x7b\x7d`). -/
structure AgentProxyRequest where
  agent : String
  params : List (String × PyVal)

/-- The downstream service's behaviour for this request, one scenario per
mode; only the scenario of the mode the handler actually uses is consulted. -/
structure Downstream where
  streamed : StreamScenario
  buffered : BufferedScenario

/-- Which httpx API a downstream call used. -/
inductive CallMode where
  | streamed
  | buffered
deriving DecidableEq

/-- Record of one outbound downstream call: mode, target URL, forwarded query
parameters and headers. -/
structure DownstreamCall where
  mode : CallMode
  url : String
  params : List (String × PyVal)
  headers : List (String × String)

/-- Outcome of one execution of the `agent` route handler:
`httpException status detail` for a raised `fastapi.HTTPException`;
`streamingResponse events escaped` for a returned `StreamingResponse`
(media type `text/event-stream`), carrying the relay generator's yielded
events and the exception, if any, that escapes the generator while the
response body is being sent; `jsonReturn body` for `return response.json()`;
`uncaughtJsonDecodeError` when `response.json()` raises
`json.JSONDecodeError`, which neither `except` clause catches
(`JSONDecodeError` is a `ValueError`, not an httpx error), so the exception
escapes the handler. -/
inductive HandlerResult where
  | httpException (status : Nat) (detail : String)
  | streamingResponse (events : List StreamEvent) (escaped : Option PyExc)
  | jsonReturn (body : PyVal)
  | uncaughtJsonDecodeError

/-- The allowed-agent set (gateway.py line 23). -/
def ALLOWED_AGENTS : List String := ["dormant", "compliance", "ia-chat", "sql-bot"]

/-- Detail string of the invalid-agent `HTTPException` (gateway.py line 109);
the iteration order of the Python set in `", ".join(ALLOWED_AGENTS)` is
unspecified, modelled here in declaration order (no claim depends on it). -/
def invalidAgentDetail : String :=
  "Invalid agent specified. Allowed agents are: " ++ String.intercalate ", " ALLOWED_AGENTS

/-- Detail string of the buffered transport-failure `HTTPException`
(gateway.py line 138). -/
def unavailableDetail : String := "The downstream AI agent service is currently unavailable."

/-- Shallow embedding of the route handler `agent` (gateway.py lines 80-144);
authentication is performed by the `get_current_user` dependency before the
body runs and does not affect the modelled behaviour.

Tracing the source: reject with a 400 `HTTPException` if `payload.agent` is
not in `ALLOWED_AGENTS` (no downstream call).  Otherwise build the internal
headers and target URL, and set
`is_streaming = payload.params.get("streaming", False)`, used as a Python
truth value.  If truthy, return a `StreamingResponse` over
`_stream_downstream_response(target_url, payload.params, internal_headers)`.
Otherwise perform the buffered `client.get`: an `httpx.RequestError` is
mapped to a 503 `HTTPException`; then `response.raise_for_status()`, which in
httpx raises `HTTPStatusError` for every non-2xx status (unlike requests it
also raises for 1xx/3xx; redirects are not followed by default), mapped to an
`HTTPException` carrying the downstream status and
`"Downstream service error: " ++ response.text`; on a 2xx response the
handler returns `response.json()`, and if the body is not valid JSON the
`json.JSONDecodeError` escapes uncaught. -/
def agent (st : Settings) (payload : AgentProxyRequest) (ds : Downstream) :
    HandlerResult × List DownstreamCall :=
  if payload.agent ∉ ALLOWED_AGENTS then
    (.httpException 400 invalidAgentDetail, [])
  else
    let internal_headers := [("x-api-key", st.INTERNAL_API_KEY), ("x-internal-caller", "1")]
    let target_url := st.AGENT_AI_SERVICE_URL ++ "/" ++ payload.agent
    let is_streaming := (dictGet payload.params "streaming" (PyVal.bool false)).truthy
    if is_streaming then
      let out := streamDownstreamResponse ds.streamed
      (.streamingResponse out.1 out.2,
       [⟨.streamed, target_url, payload.params, internal_headers⟩])
    else
      let call : DownstreamCall := ⟨.buffered, target_url, payload.params, internal_headers⟩
      match ds.buffered with
      | .requestError => (.httpException 503 unavailableDetail, [call])
      | .resp r =>
        if 200 ≤ r.status ∧ r.status < 300 then
          match r.jsonBody with
          | some body => (.jsonReturn body, [call])
          | Option.none => (.uncaughtJsonDecodeError, [call])
        else
          (.httpException r.status ("Downstream service error: " ++ r.text), [call])

/-- Caller-facing HTTP status at the framework boundary (FastAPI/Starlette,
modelled): a raised `HTTPException` yields its status code; a value returned
from the handler is sent with the route's default status 200; an exception
escaping the handler is turned by the default server-error handler into a
plain 500 response with the generic body `"Internal Server Error"`. -/
def callerStatus : HandlerResult → Nat
  | .httpException s _ => s
  | .streamingResponse _ _ => 200
  | .jsonReturn _ => 200
  | .uncaughtJsonDecodeError => 500

/-- Attribute lookup of `atext` on an `httpx.Response` raises `AttributeError`. -/
theorem getattr_atext_eq :
    getattrResponse "atext" = .error (.attributeError "atext") := rfl

/-- Every downstream call made by the handler forwards `payload.params` whole
(including any `streaming` entry). -/
theorem agent_params_forwarded (st : Settings) (p : AgentProxyRequest) (ds : Downstream) :
    ∀ c ∈ (agent st p ds).2, c.params = p.params := by
  intro c hc
  simp only [agent] at hc
  split at hc
  · simp at hc
  · split at hc
    · simp at hc
      subst hc
      rfl
    · split at hc
      · simp at hc
        subst hc
        rfl
      · split at hc
        · split at hc
          · simp at hc
            subst hc
            rfl
          · simp at hc
            subst hc
            rfl
        · simp at hc
          subst hc
          rfl

/-- Concrete configuration and inputs used by the closed statements below. -/
def settings0 : Settings := ⟨"http://agents", "key0"⟩

/-- A streaming-mode proxy request to an allowed agent. -/
def payloadStream0 : AgentProxyRequest := ⟨"dormant", [("streaming", PyVal.bool true)]⟩

/-- A buffered-mode proxy request (no `streaming` key) to an allowed agent. -/
def payloadBuf0 : AgentProxyRequest := ⟨"compliance", []⟩

/-- A proxy request whose `streaming` value is the truthy non-boolean `"false"`. -/
def payloadStrFalse : AgentProxyRequest := ⟨"sql-bot", [("streaming", PyVal.str "false")]⟩

/-- A proxy request with an empty agent name. -/
def payloadEmpty : AgentProxyRequest := ⟨"", []⟩

/-- Downstream behaviour: transport failure in both modes. -/
def dsConnectFail : Downstream := ⟨.connectError, .requestError⟩

/-- Downstream behaviour: buffered 500 with body `oops`. -/
def dsBuf500 : Downstream := ⟨.connectError, .resp ⟨500, "oops", Option.none⟩⟩

/-- Downstream behaviour: buffered 301 with a valid JSON body. -/
def dsBuf301 : Downstream := ⟨.connectError, .resp ⟨301, "moved", some (PyVal.str "ok")⟩⟩

/-- Downstream behaviour: buffered 301 with a non-JSON body. -/
def dsBuf301bad : Downstream := ⟨.connectError, .resp ⟨301, "moved", Option.none⟩⟩

/-- Downstream behaviour: buffered 200 with a valid JSON object body. -/
def dsBuf200 : Downstream :=
  ⟨.connectError, .resp ⟨200, "\x7b\"answer\": 42\x7d", some (PyVal.dict [("answer", PyVal.int 42)])⟩⟩

/-- Downstream behaviour: buffered 200 with a non-JSON body. -/
def dsBuf200bad : Downstream := ⟨.connectError, .resp ⟨200, "not json", Option.none⟩⟩

/-- C1: the claim that at most one error event is emitted, any error event is
last, and the relay never raises an exception to its consumer.  The code
violates the never-raises part: for a downstream streaming response with
status 500 and body `boom`, the relay yields zero events and raises
`AttributeError` to its consumer — `httpx.Response` has no `atext` method and
`except httpx.RequestError` does not catch `AttributeError` — contradicting
the docstring of `_stream_downstream_response` itself. -/
theorem C1_relay_raises_to_consumer :
    streamDownstreamResponse (.resp 500 "boom" [] false)
      = ([], some (PyExc.attributeError "atext")) := rfl

/-- C2: the claim that for downstream status ≥ 400 with body B the relay reads
the body and emits exactly one error event `Downstream error: B` (for status
500 and body `boom`, exactly that single event and zero data events).  The
code instead emits zero events of any kind on this path and lets an
`AttributeError` escape, because `response.atext()` does not exist. -/
theorem C2_error_status_yields_nothing :
    (streamDownstreamResponse (.resp 500 "boom" [] false)).1 = [] ∧
    (streamDownstreamResponse (.resp 500 "boom" [] false)).2 ≠ Option.none :=
  ⟨rfl, by decide⟩

/-- C3: a transport-level failure (connection error, timeout) before or during
relaying yields exactly one error event, `Downstream service is unavailable.`,
as the last event of the stream, with no exception escaping the relay; and the
handler still returns a streaming response rather than failing the call. -/
theorem C3_transport_failure_in_band
    (st : Settings) (p : AgentProxyRequest) (ds : Downstream)
    (hagent : p.agent ∈ ALLOWED_AGENTS)
    (hmode : (dictGet p.params "streaming" (PyVal.bool false)).truthy = true)
    (hfail : transportFailure ds.streamed) :
    ∃ evs, (agent st p ds).1 = .streamingResponse evs Option.none ∧
      evs.countP StreamEvent.isError = 1 ∧
      evs.getLast? = some (.error unavailableMsg) := by
  have hne := not_not_intro hagent
  have hrelay : ∃ evs, streamDownstreamResponse ds.streamed = (evs, Option.none) ∧
      evs.countP StreamEvent.isError = 1 ∧
      evs.getLast? = some (.error unavailableMsg) := by
    cases hs : ds.streamed with
    | connectError => exact ⟨[.error unavailableMsg], rfl, rfl, rfl⟩
    | resp status bodyText chunks midFail =>
      rw [hs] at hfail
      obtain ⟨hlt, hmf⟩ := hfail
      subst hmf
      refine ⟨chunks.map .data ++ [.error unavailableMsg], ?_, ?_, ?_⟩
      · simp [streamDownstreamResponse, Nat.not_le.mpr hlt]
      · simp [List.countP_append, List.countP_map, Function.comp, StreamEvent.isError]
      · exact List.getLast?_concat _
  obtain ⟨evs, he, hc, hl⟩ := hrelay
  refine ⟨evs, ?_, hc, hl⟩
  simp [agent, if_neg hne, hmode, he]

/-- C3 witness: a concrete streaming call whose downstream connection fails. -/
theorem C3_witness :
    ∃ evs, (agent settings0 payloadStream0 dsConnectFail).1
        = .streamingResponse evs Option.none ∧
      evs.countP StreamEvent.isError = 1 ∧
      evs.getLast? = some (.error unavailableMsg) :=
  C3_transport_failure_in_band settings0 payloadStream0 dsConnectFail
    (by decide) (by decide) trivial

/-- C4: for a streaming call with downstream status below 400 whose body is a
finite chunk sequence delivered without transport failure, the relay emits
exactly one data event per chunk, verbatim and in order, with no trailing
error event and no escaping exception. -/
theorem C4_success_relays_chunks_in_order
    (status : Nat) (bodyText : String) (chunks : List String)
    (h : status < 400) :
    streamDownstreamResponse (.resp status bodyText chunks false)
      = (chunks.map StreamEvent.data, Option.none) := by
  simp [streamDownstreamResponse, Nat.not_le.mpr h]

/-- C4 witness: status 200 with chunks `a`, `b`, `c` gives exactly the three
data events in order. -/
theorem C4_witness :
    200 < 400 ∧
    streamDownstreamResponse (.resp 200 "" ["a", "b", "c"] false)
      = ([.data "a", .data "b", .data "c"], Option.none) :=
  ⟨by decide, C4_success_relays_chunks_in_order 200 "" ["a", "b", "c"] (by decide)⟩

/-- C5: a proxy request whose agent name is not in the allowed set (exact,
case-sensitive membership) fails with a 400 client error and makes no
downstream call of any kind. -/
theorem C5_invalid_agent_rejected
    (st : Settings) (p : AgentProxyRequest) (ds : Downstream)
    (h : p.agent ∉ ALLOWED_AGENTS) :
    (agent st p ds).1 = .httpException 400 invalidAgentDetail ∧
    (agent st p ds).2 = [] := by
  constructor <;> simp [agent, if_pos h]

/-- C5 witness: the empty agent name is rejected with 400 and zero calls. -/
theorem C5_witness :
    ("" ∉ ALLOWED_AGENTS) ∧
    (agent settings0 payloadEmpty dsConnectFail).1 = .httpException 400 invalidAgentDetail ∧
    (agent settings0 payloadEmpty dsConnectFail).2 = [] :=
  ⟨by decide, C5_invalid_agent_rejected settings0 payloadEmpty dsConnectFail (by decide)⟩

/-- C6: on the buffered path, a transport failure fails the handler with 503,
and a downstream response with status ≥ 400 fails the handler with exactly
the downstream status and the downstream body text in the error detail. -/
theorem C6_buffered_failures
    (st : Settings) (p : AgentProxyRequest)
    (hagent : p.agent ∈ ALLOWED_AGENTS)
    (hmode : (dictGet p.params "streaming" (PyVal.bool false)).truthy = false) :
    (∀ ds : Downstream, ds.buffered = .requestError →
        (agent st p ds).1 = .httpException 503 unavailableDetail) ∧
    (∀ (ds : Downstream) (r : BufferedResp), ds.buffered = .resp r → 400 ≤ r.status →
        (agent st p ds).1
          = .httpException r.status ("Downstream service error: " ++ r.text)) := by
  have hne := not_not_intro hagent
  constructor
  · intro ds hds
    simp [agent, if_neg hne, hmode, hds]
  · intro ds r hds hstat
    have hns : ¬ (200 ≤ r.status ∧ r.status < 300) := by omega
    simp [agent, if_neg hne, hmode, hds, if_neg hns]

/-- C6 witness: a buffered connect failure gives 503; a buffered downstream
500 with body `oops` gives exactly status 500 with the body in the detail. -/
theorem C6_witness :
    (agent settings0 payloadBuf0 dsConnectFail).1 = .httpException 503 unavailableDetail ∧
    (agent settings0 payloadBuf0 dsBuf500).1
      = .httpException 500 ("Downstream service error: " ++ "oops") :=
  ⟨(C6_buffered_failures settings0 payloadBuf0 (by decide) (by decide)).1 dsConnectFail rfl,
   (C6_buffered_failures settings0 payloadBuf0 (by decide) (by decide)).2 dsBuf500
     ⟨500, "oops", Option.none⟩ rfl (by decide)⟩

/-- C7 counterexample: downstream status 301 (below 400) with a valid JSON
body, yet the handler does not return the body with caller status 200 —
httpx `raise_for_status` raises for every non-2xx status, so the handler
fails with 301 and the downstream body in the detail. -/
theorem C7_counterexample :
    301 < 400 ∧
    dsBuf301.buffered = .resp ⟨301, "moved", some (PyVal.str "ok")⟩ ∧
    (agent settings0 payloadBuf0 dsBuf301).1
      = .httpException 301 ("Downstream service error: " ++ "moved") ∧
    ¬ callerStatus (agent settings0 payloadBuf0 dsBuf301).1 = 200 :=
  ⟨by decide, rfl, rfl, by decide⟩

/-- C7 (amended): for every buffered call where the downstream responds with a
2xx success status and a valid JSON body, the handler returns exactly the
JSON-decoded downstream body with no transformation, and the caller-facing
status is 200. -/
theorem C7_success_returns_decoded_body
    (st : Settings) (p : AgentProxyRequest) (ds : Downstream) (r : BufferedResp) (body : PyVal)
    (hagent : p.agent ∈ ALLOWED_AGENTS)
    (hmode : (dictGet p.params "streaming" (PyVal.bool false)).truthy = false)
    (hresp : ds.buffered = .resp r)
    (hsuc : 200 ≤ r.status ∧ r.status < 300)
    (hjson : r.jsonBody = some body) :
    (agent st p ds).1 = .jsonReturn body ∧
    callerStatus (agent st p ds).1 = 200 := by
  have hne := not_not_intro hagent
  have h1 : (agent st p ds).1 = .jsonReturn body := by
    simp [agent, if_neg hne, hmode, hresp, if_pos hsuc, hjson]
  exact ⟨h1, by rw [h1]; rfl⟩

/-- C7 witness: a buffered 200 response whose body decodes to the JSON object
with key `answer` is returned exactly, at caller status 200. -/
theorem C7_witness :
    (agent settings0 payloadBuf0 dsBuf200).1
      = .jsonReturn (PyVal.dict [("answer", PyVal.int 42)]) ∧
    callerStatus (agent settings0 payloadBuf0 dsBuf200).1 = 200 :=
  C7_success_returns_decoded_body settings0 payloadBuf0 dsBuf200
    ⟨200, "\x7b\"answer\": 42\x7d", some (PyVal.dict [("answer", PyVal.int 42)])⟩
    (PyVal.dict [("answer", PyVal.int 42)]) (by decide) (by decide) rfl (by decide) rfl

/-- C8 counterexample: for downstream status 200 and the single chunk `hello`,
the byte string emitted to the caller for the data event is the chunk itself,
which is not a `data: <json>\n\n` server-sent-event frame — refuting the
claim that every emitted event is so framed. -/
theorem C8_counterexample :
    relayBytes (.resp 200 "" ["hello"] false) = ["hello"] ∧
    isSSEFrame "hello" = false :=
  ⟨rfl, by decide⟩

/-- C8 (amended): every error event emitted by the relay is framed as a
complete server-sent-event frame `data: <json>\n\n` (with the json payload
produced by `json.dumps`), while every data event is the raw downstream chunk
emitted verbatim, with no framing added by the relay. -/
theorem C8_error_frames_data_verbatim :
    (∀ (s : StreamScenario) (msg : String),
        StreamEvent.error msg ∈ (streamDownstreamResponse s).1 →
          eventBytes (.error msg) = "data: " ++ pyJsonErrorObj msg ++ "\n\n" ∧
          isSSEFrame (eventBytes (.error msg)) = true) ∧
    (∀ (s : StreamScenario) (chunk : String),
        StreamEvent.data chunk ∈ (streamDownstreamResponse s).1 →
          eventBytes (.data chunk) = chunk) := by
  constructor
  · intro s msg hmem
    have hmsg : msg = unavailableMsg := by
      cases s with
      | connectError =>
        simpa [streamDownstreamResponse] using hmem
      | resp status bodyText chunks midFail =>
        by_cases h4 : 400 ≤ status
        · simp [streamDownstreamResponse, h4, getattr_atext_eq] at hmem
        · cases midFail with
          | false => simp [streamDownstreamResponse, h4] at hmem
          | true => simpa [streamDownstreamResponse, h4] using hmem
    subst hmsg
    exact ⟨rfl, by decide⟩
  · intro s chunk _
    rfl

/-- C8 amended witness: the unavailability error event is emitted as a full
SSE frame, and a concrete data chunk is emitted verbatim. -/
theorem C8_witness :
    (eventBytes (.error unavailableMsg)
        = "data: " ++ pyJsonErrorObj unavailableMsg ++ "\n\n" ∧
      isSSEFrame (eventBytes (.error unavailableMsg)) = true) ∧
    eventBytes (.data "hi") = "hi" :=
  ⟨C8_error_frames_data_verbatim.1 .connectError unavailableMsg
      (by simp [streamDownstreamResponse]),
   C8_error_frames_data_verbatim.2 (.resp 200 "" ["hi"] false) "hi"
      (by simp [streamDownstreamResponse])⟩

/-- C9 counterexample: downstream status 301 (below 400) with a non-JSON body;
the claim predicts a caller-facing 500, but `raise_for_status` raises for the
non-2xx status first, so the handler fails with 301, not 500. -/
theorem C9_counterexample :
    301 < 400 ∧
    dsBuf301bad.buffered = .resp ⟨301, "moved", Option.none⟩ ∧
    (agent settings0 payloadBuf0 dsBuf301bad).1
      = .httpException 301 ("Downstream service error: " ++ "moved") ∧
    ¬ callerStatus (agent settings0 payloadBuf0 dsBuf301bad).1 = 500 :=
  ⟨by decide, rfl, rfl, by decide⟩

/-- C9 (amended): for every buffered call where the downstream responds with a
2xx status but a body that is not valid JSON, the JSON decode error escapes
the handler uncaught; at the framework boundary this is the generic 500
server error, so the malformed body is neither silently swallowed nor
returned to the caller. -/
theorem C9_malformed_json_escapes
    (st : Settings) (p : AgentProxyRequest) (ds : Downstream) (r : BufferedResp)
    (hagent : p.agent ∈ ALLOWED_AGENTS)
    (hmode : (dictGet p.params "streaming" (PyVal.bool false)).truthy = false)
    (hresp : ds.buffered = .resp r)
    (hsuc : 200 ≤ r.status ∧ r.status < 300)
    (hjson : r.jsonBody = Option.none) :
    (agent st p ds).1 = .uncaughtJsonDecodeError ∧
    callerStatus (agent st p ds).1 = 500 := by
  have hne := not_not_intro hagent
  have h1 : (agent st p ds).1 = .uncaughtJsonDecodeError := by
    simp [agent, if_neg hne, hmode, hresp, if_pos hsuc, hjson]
  exact ⟨h1, by rw [h1]; rfl⟩

/-- C9 amended witness: a buffered 200 response with a non-JSON body escapes
as an uncaught decode error, caller-facing 500. -/
theorem C9_witness :
    (agent settings0 payloadBuf0 dsBuf200bad).1 = .uncaughtJsonDecodeError ∧
    callerStatus (agent settings0 payloadBuf0 dsBuf200bad).1 = 500 :=
  C9_malformed_json_escapes settings0 payloadBuf0 dsBuf200bad
    ⟨200, "not json", Option.none⟩ (by decide) (by decide) rfl (by decide) rfl

/-- C10: mode selection is by Python truthiness of
`params.get("streaming", False)` — streaming is chosen exactly when the value
is truthy (so the non-empty string `"false"` selects streaming, while an
absent key, `False`, `0`, `""` or `None` select buffered mode) — and the
`streaming` entry stays in `params`, which every downstream call forwards
whole. -/
theorem C10_truthiness_mode_selection
    (st : Settings) (p : AgentProxyRequest) (ds : Downstream)
    (hagent : p.agent ∈ ALLOWED_AGENTS) :
    ((∃ evs exc, (agent st p ds).1 = .streamingResponse evs exc) ↔
        (dictGet p.params "streaming" (PyVal.bool false)).truthy = true) ∧
    (∀ c ∈ (agent st p ds).2, c.params = p.params) ∧
    PyVal.truthy (.str "false") = true ∧
    PyVal.truthy (.bool false) = false ∧
    PyVal.truthy (.int 0) = false ∧
    PyVal.truthy (.str "") = false ∧
    PyVal.truthy .none = false ∧
    dictGet [] "streaming" (PyVal.bool false) = PyVal.bool false := by
  have hne := not_not_intro hagent
  refine ⟨?_, agent_params_forwarded st p ds, by decide, by decide, by decide, by decide,
    rfl, rfl⟩
  cases htr : (dictGet p.params "streaming" (PyVal.bool false)).truthy with
  | false =>
    simp only [Bool.false_eq_true, iff_false]
    rintro ⟨evs, exc, h⟩
    simp only [agent, if_neg hne, htr, Bool.false_eq_true, if_false] at h
    split at h
    · simp at h
    · split at h
      · split at h
        · simp at h
        · simp at h
      · simp at h
  | true =>
    simp only [iff_true]
    exact ⟨(streamDownstreamResponse ds.streamed).1, (streamDownstreamResponse ds.streamed).2,
      by simp [agent, if_neg hne, htr]⟩

/-- C10 witness: the truthy non-boolean value `"false"` selects streaming
mode on a concrete request. -/
theorem C10_witness :
    ∃ evs exc, (agent settings0 payloadStrFalse dsConnectFail).1
      = .streamingResponse evs exc :=
  ((C10_truthiness_mode_selection settings0 payloadStrFalse dsConnectFail
      (by decide)).1).mpr (by decide)

end Gateway
